import Mathlib

/-!
Verification of the window-arithmetic, block-iteration, affine-indexing,
CRS-parameter and dataset-lifecycle layers of the rasterio bindings.

The Python/Cython sources are shallowly embedded: Python integers become
`Int`/`Nat`, Python floats become `ℚ` (exact arithmetic standing in for the
float computations the code performs), `None`-able values become `Option`,
raised exceptions become `Except String`, and the mutable dataset objects
become explicit state records threaded through the accessor functions.
Python truthiness (`x or default`, `if not self._dtypes: ...`) is modelled
exactly, since several behaviours hinge on it.
-/

namespace Rasterio

/-! ## Window arithmetic (`eval_window`, `crop_window`)

A window argument is `((row_start, row_stop), (col_start, col_stop))` where
each bound is either an integer or `None`.  `eval_window` resolves the bounds
against a raster height/width; `crop_window` clamps an already evaluated
window into the raster extent. -/

/-- A single window bound: `none` models Python `None`. -/
abbrev Bound := Option Int

/-- A window as passed by callers: pairs of optional bounds. -/
abbrev WindowArg := (Bound × Bound) × (Bound × Bound)

/-- A fully evaluated window: pairs of integers. -/
abbrev EvaluatedWindow := (Int × Int) × (Int × Int)

/-- Python `b or d` where `b` is `None` or an `int`: `None` and the integer
`0` are both falsy, so both select the default `d`. -/
def orDefault (b : Bound) (d : Int) : Int :=
  match b with
  | none => d
  | some v => if v = 0 then d else v

/-- The negative-bound resolution step of `eval_window`:
`if v < 0: (if dim < 0: raise ValueError("invalid <name>: <dim>")); v += dim`. -/
def resolveNeg (v dim : Int) (dimName : String) : Except String Int :=
  if v < 0 then
    if dim < 0 then .error ("invalid " ++ dimName ++ ": " ++ toString dim)
    else .ok (v + dim)
  else .ok v

/-- `eval_window(window, height, width)` from `_base.pyx` / `_io.pyx`:
row bounds are resolved and validated first, then column bounds.  A missing
(or zero, by truthiness) start defaults to `0`; a missing (or zero) stop
defaults to the dimension; negative bounds are shifted by the dimension. -/
def evalWindow (w : WindowArg) (height width : Int) :
    Except String EvaluatedWindow :=
  match resolveNeg (orDefault w.1.1 0) height "height" with
  | .error e => .error e
  | .ok rStart =>
    match resolveNeg (orDefault w.1.2 height) height "height" with
    | .error e => .error e
    | .ok rStop =>
      if ¬ (rStop ≥ rStart) then
        .error ("invalid window: row range (" ++ toString rStart ++ ", " ++
          toString rStop ++ ")")
      else
        match resolveNeg (orDefault w.2.1 0) width "width" with
        | .error e => .error e
        | .ok cStart =>
          match resolveNeg (orDefault w.2.2 width) width "width" with
          | .error e => .error e
          | .ok cStop =>
            if ¬ (cStop ≥ cStart) then
              .error ("invalid window: col range (" ++ toString cStart ++
                ", " ++ toString cStop ++ ")")
            else .ok ((rStart, rStop), (cStart, cStop))

/-- `crop_window(window, height, width)`: clamp each bound independently. -/
def cropWindow (w : EvaluatedWindow) (height width : Int) : EvaluatedWindow :=
  ((min (max w.1.1 0) height, max 0 (min w.1.2 height)),
   (min (max w.2.1 0) width, max 0 (min w.2.2 width)))

/-- Re-inject an evaluated window as a window argument (all bounds present),
as happens when the result of `eval_window` is passed back to it. -/
def toWindowArg (w : EvaluatedWindow) : WindowArg :=
  ((some w.1.1, some w.1.2), (some w.2.1, some w.2.2))

/-- Helper: `eval_window` on a window whose four bounds are all present,
nonnegative, ordered, and whose stops are strictly positive, returns the
bounds unchanged (no shifting, no defaulting, validation passes). -/
theorem evalWindow_all_present (rs rt cs ct h w : Int)
    (hrs : 0 ≤ rs) (hr : rs ≤ rt) (hrt : 0 < rt)
    (hcs : 0 ≤ cs) (hc : cs ≤ ct) (hct : 0 < ct) :
    evalWindow ((some rs, some rt), (some cs, some ct)) h w =
      .ok ((rs, rt), (cs, ct)) := by
  have o1 : orDefault (some rs) 0 = rs := by
    show (if rs = 0 then (0 : Int) else rs) = rs
    split <;> omega
  have o2 : orDefault (some rt) h = rt := by
    show (if rt = 0 then h else rt) = rt
    rw [if_neg (by omega : ¬ rt = 0)]
  have o3 : orDefault (some cs) 0 = cs := by
    show (if cs = 0 then (0 : Int) else cs) = cs
    split <;> omega
  have o4 : orDefault (some ct) w = ct := by
    show (if ct = 0 then w else ct) = ct
    rw [if_neg (by omega : ¬ ct = 0)]
  have r1 : resolveNeg rs h "height" = .ok rs := by
    show (if rs < 0 then _ else Except.ok rs) = Except.ok rs
    rw [if_neg (by omega : ¬ rs < 0)]
  have r2 : resolveNeg rt h "height" = .ok rt := by
    show (if rt < 0 then _ else Except.ok rt) = Except.ok rt
    rw [if_neg (by omega : ¬ rt < 0)]
  have r3 : resolveNeg cs w "width" = .ok cs := by
    show (if cs < 0 then _ else Except.ok cs) = Except.ok cs
    rw [if_neg (by omega : ¬ cs < 0)]
  have r4 : resolveNeg ct w "width" = .ok ct := by
    show (if ct < 0 then _ else Except.ok ct) = Except.ok ct
    rw [if_neg (by omega : ¬ ct < 0)]
  simp only [evalWindow, o1, o2, o3, o4, r1, r2, r3, r4]
  rw [if_neg (not_not_intro (by omega : rt ≥ rs)),
    if_neg (not_not_intro (by omega : ct ≥ cs))]

/-- Helper: if `eval_window` succeeds, the result satisfies the validated
ordering `start ≤ stop` on both axes. -/
theorem evalWindow_ok_ordered (w0 : WindowArg) (h w : Int)
    (res : EvaluatedWindow) (heval : evalWindow w0 h w = .ok res) :
    res.1.1 ≤ res.1.2 ∧ res.2.1 ≤ res.2.2 := by
  unfold evalWindow at heval
  split at heval
  · exact absurd heval (by simp)
  split at heval
  · exact absurd heval (by simp)
  split at heval
  · exact absurd heval (by simp)
  next hrow =>
  split at heval
  · exact absurd heval (by simp)
  split at heval
  · exact absurd heval (by simp)
  split at heval
  · exact absurd heval (by simp)
  next hcol =>
  have h1 := not_not.mp hrow
  have h2 := not_not.mp hcol
  cases heval
  exact ⟨h1, h2⟩

/-- C1: `eval_window` fails to distinguish an explicit integer `0` bound from
an absent bound: the code computes `r_stop = r[1] or height`, a truthiness
test, so an explicit row stop of `0` with a positive row start is silently
replaced by the default `height` instead of raising the invalid-window
error.  At window `((2, 0), (0, 5))` with `height = width = 10` the code
returns `((2, 10), (0, 5))`. -/
theorem eval_window_explicit_zero_stop_is_defaulted :
    evalWindow ((some 2, some 0), (some 0, some 5)) 10 10 =
      .ok ((2, 10), (0, 5)) := rfl

/-- C10: `eval_window` never clips to the raster extent: for all-present
windows with `0 ≤ start ≤ stop` and `0 < stop` on each axis, the bounds come
back unchanged even when a stop exceeds the corresponding dimension; only
`crop_window` restricts a window to `[0, dimension]`. -/
theorem eval_window_never_clips (rs rt cs ct h w : Int)
    (hh : 0 ≤ h) (hw : 0 ≤ w)
    (hrs : 0 ≤ rs) (hr : rs ≤ rt) (hrt : 0 < rt)
    (hcs : 0 ≤ cs) (hc : cs ≤ ct) (hct : 0 < ct) :
    evalWindow ((some rs, some rt), (some cs, some ct)) h w =
      .ok ((rs, rt), (cs, ct)) :=
  evalWindow_all_present rs rt cs ct h w hrs hr hrt hcs hc hct

/-- Witness for C10 at a window whose stops exceed the 10×10 extent. -/
theorem eval_window_never_clips_witness :
    (0 : Int) ≤ 10 ∧
    evalWindow ((some 0, some 15), (some 2, some 20)) 10 10 =
      .ok ((0, 15), (2, 20)) :=
  ⟨by decide, eval_window_never_clips 0 15 2 20 10 10 (by decide) (by decide)
    (by decide) (by decide) (by decide) (by decide) (by decide) (by decide)⟩

/-- C8: `crop_window` is total and clamps every bound independently into
`[0, height]` × `[0, width]`; in particular
`crop_window(((-5,15),(-3,20)),10,10) == ((0,10),(0,10))`. -/
theorem crop_window_clamps (rs rt cs ct h w : Int)
    (hh : 0 ≤ h) (hw : 0 ≤ w) :
    (0 ≤ (cropWindow ((rs, rt), (cs, ct)) h w).1.1 ∧
      (cropWindow ((rs, rt), (cs, ct)) h w).1.1 ≤ h ∧
      0 ≤ (cropWindow ((rs, rt), (cs, ct)) h w).1.2 ∧
      (cropWindow ((rs, rt), (cs, ct)) h w).1.2 ≤ h ∧
      0 ≤ (cropWindow ((rs, rt), (cs, ct)) h w).2.1 ∧
      (cropWindow ((rs, rt), (cs, ct)) h w).2.1 ≤ w ∧
      0 ≤ (cropWindow ((rs, rt), (cs, ct)) h w).2.2 ∧
      (cropWindow ((rs, rt), (cs, ct)) h w).2.2 ≤ w) ∧
    cropWindow ((-5, 15), (-3, 20)) 10 10 = ((0, 10), (0, 10)) := by
  refine ⟨?_, by simp [cropWindow]⟩
  simp only [cropWindow]
  refine ⟨?_, ?_, ?_, ?_, ?_, ?_, ?_, ?_⟩ <;> omega

/-- Witness for C8 at a concrete out-of-range window. -/
theorem crop_window_clamps_witness :
    (0 : Int) ≤ 10 ∧
    cropWindow ((-5, 15), (-3, 20)) 10 10 = ((0, 10), (0, 10)) :=
  ⟨by decide, (crop_window_clamps (-5) 15 (-3) 20 10 10 (by decide)
    (by decide)).2⟩

/-- C9 counterexample: `eval_window` is not idempotent.  Evaluating
`((0,1),(-10,-10))` against a 10×10 raster succeeds with `((0,1),(0,0))`,
but re-evaluating that result turns the (explicit) zero column stop into the
default `width`, yielding `((0,1),(0,10)) ≠ ((0,1),(0,0))`. -/
theorem eval_window_not_idempotent :
    evalWindow ((some 0, some 1), (some (-10), some (-10))) 10 10 =
      .ok ((0, 1), (0, 0)) ∧
    evalWindow (toWindowArg ((0, 1), (0, 0))) 10 10 =
      .ok ((0, 1), (0, 10)) ∧
    (((0, 1), (0, 10)) : EvaluatedWindow) ≠ ((0, 1), (0, 0)) :=
  ⟨rfl, rfl, by decide⟩

/-- C9 amended: `eval_window` is idempotent on every window whose evaluation
succeeds with nonnegative starts and strictly positive stops; in general a
result bound equal to `0` is re-read as absent and a still-negative result
bound is shifted again, so idempotence fails. -/
theorem eval_window_idempotent_on_positive (w0 : WindowArg) (h w : Int)
    (res : EvaluatedWindow) (heval : evalWindow w0 h w = .ok res)
    (h1 : 0 ≤ res.1.1) (h2 : 0 < res.1.2)
    (h3 : 0 ≤ res.2.1) (h4 : 0 < res.2.2) :
    evalWindow (toWindowArg res) h w = .ok res := by
  obtain ⟨hr, hc⟩ := evalWindow_ok_ordered w0 h w res heval
  have := evalWindow_all_present res.1.1 res.1.2 res.2.1 res.2.2 h w
    h1 hr h2 h3 hc h4
  simpa [toWindowArg] using this

/-- Witness for the amended C9. -/
theorem eval_window_idempotent_on_positive_witness :
    evalWindow ((some 1, some 3), (some 2, some 4)) 10 10 =
      .ok ((1, 3), (2, 4)) ∧
    evalWindow (toWindowArg ((1, 3), (2, 4))) 10 10 = .ok ((1, 3), (2, 4)) :=
  ⟨rfl,
   eval_window_idempotent_on_positive ((some 1, some 3), (some 2, some 4))
    10 10 ((1, 3), (2, 4)) rfl (by decide) (by decide) (by decide)
    (by decide)⟩

/-! ## Block iteration (`block_windows`)

`block_windows` computes `nrows`/`ncols` as `d + int(m > 0)` from
`divmod(size, blocksize)` and yields `((j, i), window)` in a double loop:
outer over block rows, inner over block columns, each window clipped with
`min(blocksize, size - offset)`. -/

/-- `d, m = divmod(size, block); n = d + int(m > 0)` — the number of blocks
along one axis. -/
def nBlocks (size block : ℕ) : ℕ :=
  size / block + (if size % block > 0 then 1 else 0)

/-- The window yielded for block `(j, i)`:
`((row, row + min(h, height - row)), (col, col + min(w, width - col)))`. -/
def blockWindow (h w H W j i : ℕ) : (ℕ × ℕ) × (ℕ × ℕ) :=
  ((j * h, j * h + min h (H - j * h)), (i * w, i * w + min w (W - i * w)))

/-- The sequence yielded by `block_windows` for a band of block shape
`(h, w)` on a raster of shape `(H, W)`: the double loop flattened in yield
order. -/
def blockWindows (h w H W : ℕ) : List ((ℕ × ℕ) × ((ℕ × ℕ) × (ℕ × ℕ))) :=
  (List.range (nBlocks H h)).flatMap fun j =>
    (List.range (nBlocks W w)).map fun i => ((j, i), blockWindow h w H W j i)

/-- A pixel `(r, c)` lies in a half-open window. -/
def inWindow (win : (ℕ × ℕ) × (ℕ × ℕ)) (r c : ℕ) : Prop :=
  win.1.1 ≤ r ∧ r < win.1.2 ∧ win.2.1 ≤ c ∧ c < win.2.2

instance (win : (ℕ × ℕ) × (ℕ × ℕ)) (r c : ℕ) : Decidable (inWindow win r c) :=
  inferInstanceAs (Decidable (_ ∧ _ ∧ _ ∧ _))

/-- The loop count formula equals the usual ceiling-division formula. -/
theorem nBlocks_eq_ceil (s b : ℕ) (hb : 0 < b) :
    nBlocks s b = (s + b - 1) / b := by
  obtain ⟨q, m, hm, hqm⟩ : ∃ q m, m < b ∧ b * q + m = s :=
    ⟨s / b, s % b, Nat.mod_lt _ hb, Nat.div_add_mod s b⟩
  unfold nBlocks
  have hdiv : s / b = q := by
    rw [← hqm, Nat.mul_add_div hb, Nat.div_eq_of_lt hm, Nat.add_zero]
  have hmod : s % b = m := by
    rw [← hqm, Nat.mul_add_mod, Nat.mod_eq_of_lt hm]
  rw [hdiv, hmod]
  rcases Nat.eq_zero_or_pos m with hm0 | hm0
  · have hstep : s + b - 1 = b * q + (b - 1) := by omega
    rw [if_neg (by omega), hstep, Nat.mul_add_div hb,
      Nat.div_eq_of_lt (by omega)]
  · have hstep : s + b - 1 = b * (q + 1) + (m - 1) := by
      have : b * (q + 1) = b * q + b := by ring
      omega
    rw [if_pos hm0, hstep, Nat.mul_add_div hb, Nat.div_eq_of_lt (by omega)]

/-- Every block row/column offset lies strictly inside the raster. -/
theorem mul_lt_of_lt_nBlocks {s b : ℕ} (hb : 0 < b) {j : ℕ}
    (hj : j < nBlocks s b) : j * b < s := by
  obtain ⟨q, m, hm, hqm⟩ : ∃ q m, m < b ∧ b * q + m = s :=
    ⟨s / b, s % b, Nat.mod_lt _ hb, Nat.div_add_mod s b⟩
  have hdiv : s / b = q := by
    rw [← hqm, Nat.mul_add_div hb, Nat.div_eq_of_lt hm, Nat.add_zero]
  have hmod : s % b = m := by
    rw [← hqm, Nat.mul_add_mod, Nat.mod_eq_of_lt hm]
  unfold nBlocks at hj
  rw [hdiv, hmod] at hj
  rcases Nat.eq_zero_or_pos m with hm0 | hm0
  · rw [if_neg (by omega), Nat.add_zero] at hj
    have h1 : (j + 1) * b ≤ q * b := Nat.mul_le_mul_right b hj
    have h2 : (j + 1) * b = j * b + b := by ring
    have h3 : q * b = b * q := by ring
    omega
  · rw [if_pos hm0] at hj
    have h1 : j * b ≤ q * b := Nat.mul_le_mul_right b (by omega)
    have h3 : q * b = b * q := by ring
    omega

/-- The raster is covered: `size ≤ nBlocks * block`. -/
theorem le_nBlocks_mul (s b : ℕ) (hb : 0 < b) : s ≤ nBlocks s b * b := by
  obtain ⟨q, m, hm, hqm⟩ : ∃ q m, m < b ∧ b * q + m = s :=
    ⟨s / b, s % b, Nat.mod_lt _ hb, Nat.div_add_mod s b⟩
  have hdiv : s / b = q := by
    rw [← hqm, Nat.mul_add_div hb, Nat.div_eq_of_lt hm, Nat.add_zero]
  have hmod : s % b = m := by
    rw [← hqm, Nat.mul_add_mod, Nat.mod_eq_of_lt hm]
  unfold nBlocks
  rw [hdiv, hmod]
  rcases Nat.eq_zero_or_pos m with hm0 | hm0
  · rw [if_neg (by omega), Nat.add_zero]
    have h3 : q * b = b * q := by ring
    omega
  · rw [if_pos hm0]
    have h2 : (q + 1) * b = b * q + b := by ring
    omega

/-- One axis of the tiling: a coordinate `x < s` lies in the half-open range
of block `j` iff `j` is `x`'s block index `x / b`. -/
theorem axis_range_iff {s b j x : ℕ} (hb : 0 < b) (hj : j < nBlocks s b)
    (hx : x < s) :
    (j * b ≤ x ∧ x < j * b + min b (s - j * b)) ↔ j = x / b := by
  constructor
  · rintro ⟨h1, h2⟩
    have h3 : x < j * b + b := by
      have := Nat.min_le_left b (s - j * b); omega
    have h4 : x < (j + 1) * b := by have : (j + 1) * b = j * b + b := by ring
                                    omega
    exact (Nat.div_eq_of_lt_le h1 h4).symm
  · rintro rfl
    have h1 : x / b * b ≤ x := Nat.div_mul_le_self x b
    have h2 : b * (x / b) + x % b = x := Nat.div_add_mod x b
    have h3 : x % b < b := Nat.mod_lt _ hb
    have h4 : b * (x / b) = x / b * b := by ring
    refine ⟨h1, ?_⟩
    omega

/-- Membership in the yielded sequence, unfolded. -/
theorem mem_blockWindows_iff {h w H W : ℕ}
    (e : (ℕ × ℕ) × ((ℕ × ℕ) × (ℕ × ℕ))) :
    e ∈ blockWindows h w H W ↔
      ∃ j, j < nBlocks H h ∧ ∃ i, i < nBlocks W w ∧
        e = ((j, i), blockWindow h w H W j i) := by
  simp only [blockWindows, List.mem_flatMap, List.mem_map, List.mem_range]
  constructor
  · rintro ⟨j, hj, i, hi, rfl⟩
    exact ⟨j, hj, i, hi, rfl⟩
  · rintro ⟨j, hj, i, hi, rfl⟩
    exact ⟨j, hj, i, hi, rfl⟩

/-- The flattened double loop written as a single indexed map, giving access
to the `k`-th yielded element. -/
theorem blockWindows_eq_map_range (h w H W : ℕ) (hw0 : 0 < nBlocks W w) :
    blockWindows h w H W =
      (List.range (nBlocks H h * nBlocks W w)).map fun k =>
        ((k / nBlocks W w, k % nBlocks W w),
          blockWindow h w H W (k / nBlocks W w) (k % nBlocks W w)) := by
  unfold blockWindows
  generalize nBlocks H h = a
  induction a with
  | zero => simp
  | succ n ih =>
      rw [List.range_succ, List.flatMap_append, ih, Nat.succ_mul,
        List.range_add, List.map_append]
      congr 1
      rw [List.flatMap_cons, List.flatMap_nil, List.append_nil, List.map_map]
      refine List.map_congr_left ?_
      intro i hi
      rw [List.mem_range] at hi
      have hd : (n * nBlocks W w + i) / nBlocks W w = n := by
        rw [mul_comm, Nat.mul_add_div hw0, Nat.div_eq_of_lt hi, Nat.add_zero]
      have hm : (n * nBlocks W w + i) % nBlocks W w = i := by
        rw [mul_comm n (nBlocks W w), Nat.mul_add_mod, Nat.mod_eq_of_lt hi]
      simp [Function.comp, hd, hm]

/-- A positive axis always has at least one block. -/
theorem nBlocks_pos (s b : ℕ) (hs : 0 < s) : 0 < nBlocks s b := by
  have hdm := Nat.div_add_mod s b
  unfold nBlocks
  generalize s / b = q at hdm ⊢
  generalize s % b = m at hdm ⊢
  split
  · omega
  next hcond =>
    rcases Nat.eq_zero_or_pos q with h0 | h0
    · rw [h0, Nat.mul_zero, Nat.zero_add] at hdm
      omega
    · omega

/-- C2: `block_windows` yields exactly `ceil(H/h) * ceil(W/w)` entries, in
row-major order (`k`-th element is block `(k / ncols, k % ncols)` with the
block's clipped window), every yielded window is nonempty and clipped to the
raster extent, and the yielded windows tile `[0,H) × [0,W)` with no gaps and
no overlaps (every pixel lies in exactly one yielded window). -/
theorem block_windows_tiling (h w H W : ℕ)
    (hh : 0 < h) (hw : 0 < w) (hH : 0 < H) (hW : 0 < W) :
    nBlocks H h = (H + h - 1) / h ∧
    nBlocks W w = (W + w - 1) / w ∧
    (blockWindows h w H W).length = ((H + h - 1) / h) * ((W + w - 1) / w) ∧
    (∀ k, k < (blockWindows h w H W).length →
      (blockWindows h w H W)[k]? =
        some ((k / nBlocks W w, k % nBlocks W w),
          blockWindow h w H W (k / nBlocks W w) (k % nBlocks W w))) ∧
    (∀ e ∈ blockWindows h w H W,
      e.2.1.1 < e.2.1.2 ∧ e.2.1.2 ≤ H ∧ e.2.2.1 < e.2.2.2 ∧ e.2.2.2 ≤ W) ∧
    (∀ r c, r < H → c < W →
      ∃! e, e ∈ blockWindows h w H W ∧ inWindow e.2 r c) := by
  have hnr : 0 < nBlocks H h := nBlocks_pos H h hH
  have hnc : 0 < nBlocks W w := nBlocks_pos W w hW
  have hmap := blockWindows_eq_map_range h w H W hnc
  refine ⟨nBlocks_eq_ceil H h hh, nBlocks_eq_ceil W w hw, ?_, ?_, ?_, ?_⟩
  · rw [hmap, List.length_map, List.length_range, nBlocks_eq_ceil H h hh,
      nBlocks_eq_ceil W w hw]
  · intro k hk
    have hk2 : k < nBlocks H h * nBlocks W w := by
      rw [hmap, List.length_map, List.length_range] at hk
      exact hk
    rw [hmap, List.getElem?_map, List.getElem?_range hk2]
    rfl
  · intro e he
    rw [mem_blockWindows_iff] at he
    obtain ⟨j, hj, i, hi, rfl⟩ := he
    have hjb : j * h < H := mul_lt_of_lt_nBlocks hh hj
    have hib : i * w < W := mul_lt_of_lt_nBlocks hw hi
    unfold blockWindow
    refine ⟨?_, ?_, ?_, ?_⟩ <;> simp only [] <;> omega
  · intro r c hr hc
    have hjlt : r / h < nBlocks H h := by
      rw [Nat.div_lt_iff_lt_mul hh]
      exact lt_of_lt_of_le hr (le_nBlocks_mul H h hh)
    have hilt : c / w < nBlocks W w := by
      rw [Nat.div_lt_iff_lt_mul hw]
      exact lt_of_lt_of_le hc (le_nBlocks_mul W w hw)
    refine ⟨((r / h, c / w), blockWindow h w H W (r / h) (c / w)),
      ⟨?_, ?_⟩, ?_⟩
    · rw [mem_blockWindows_iff]
      exact ⟨r / h, hjlt, c / w, hilt, rfl⟩
    · unfold inWindow blockWindow
      have hrow := (axis_range_iff hh hjlt hr).mpr rfl
      have hcol := (axis_range_iff hw hilt hc).mpr rfl
      simp only []
      exact ⟨hrow.1, hrow.2, hcol.1, hcol.2⟩
    · rintro e ⟨he, hin⟩
      rw [mem_blockWindows_iff] at he
      obtain ⟨j, hj, i, hi, rfl⟩ := he
      unfold inWindow blockWindow at hin
      simp only [] at hin
      have hrow := (axis_range_iff hh hj hr).mp ⟨hin.1, hin.2.1⟩
      have hcol := (axis_range_iff hw hi hc).mp ⟨hin.2.2.1, hin.2.2.2⟩
      rw [hrow, hcol]

/-- Witness for C2 on a 5×7 raster with 2×3 blocks. -/
theorem block_windows_tiling_witness :
    (0 < 2 ∧ 0 < 3 ∧ 0 < 5 ∧ 0 < 7) ∧
    (blockWindows 2 3 5 7).length = ((5 + 2 - 1) / 2) * ((7 + 3 - 1) / 3) :=
  ⟨⟨by decide, by decide, by decide, by decide⟩,
    (block_windows_tiling 2 3 5 7 (by decide) (by decide) (by decide)
      (by decide)).2.2.1⟩

/-! ## Affine transforms and coordinate indexing
(`get_index`, `get_window`, `window_bounds`)

The affine coefficients are `(a, b, c, d, e, f)` with
`x = a*col + b*row + c`, `y = d*col + e*row + f`.  Float arithmetic is
embedded as exact rational arithmetic. -/

/-- The six affine coefficients. -/
structure AffineT where
  a : ℚ
  b : ℚ
  c : ℚ
  d : ℚ
  e : ℚ
  f : ℚ

/-- `affine * (x, y)` of the affine package:
`(a*x + b*y + c, d*x + e*y + f)`. -/
def applyAffine (t : AffineT) (x y : ℚ) : ℚ × ℚ :=
  (t.a * x + t.b * y + t.c, t.d * x + t.e * y + t.f)

/-- `eps = 10.0**-precision * (1.0 - 2.0*op(0.1))`: positive for `floor`,
negative for `ceil`. -/
def indexEps (op : ℚ → ℤ) (precision : ℕ) : ℚ :=
  (1 / 10 ^ precision) * (1 - 2 * ((op (1 / 10) : ℤ) : ℚ))

/-- `get_index(x, y, affine, op, precision)`:
`row = int(op((y - eps - f) / e)); col = int(op((x + eps - c) / a))`. -/
def get_index (x y : ℚ) (t : AffineT) (op : ℚ → ℤ) (precision : ℕ) :
    ℤ × ℤ :=
  (op ((y - indexEps op precision - t.f) / t.e),
   op ((x + indexEps op precision - t.c) / t.a))

/-- `get_window(left, bottom, right, top, affine, precision)`: floor-index
the `(left, top)` corner, ceil-index the `(right, bottom)` corner, zip into
`((row_start, row_stop), (col_start, col_stop))`. -/
def get_window (left bottom right top : ℚ) (t : AffineT) (precision : ℕ) :
    (ℤ × ℤ) × (ℤ × ℤ) :=
  (((get_index left top t Int.floor precision).1,
    (get_index right bottom t Int.ceil precision).1),
   ((get_index left top t Int.floor precision).2,
    (get_index right bottom t Int.ceil precision).2))

/-- `window_bounds(window)`: apply the transform to the window's two
diagonal corners, `(col_min, row_max)` and `(col_max, row_min)`, giving
`(x_min, y_min, x_max, y_max)`. -/
def window_bounds (win : (ℤ × ℤ) × (ℤ × ℤ)) (t : AffineT) :
    ℚ × ℚ × ℚ × ℚ :=
  ((applyAffine t (win.2.1 : ℚ) (win.1.2 : ℚ)).1,
   (applyAffine t (win.2.1 : ℚ) (win.1.2 : ℚ)).2,
   (applyAffine t (win.2.2 : ℚ) (win.1.1 : ℚ)).1,
   (applyAffine t (win.2.2 : ℚ) (win.1.1 : ℚ)).2)

/-- The epsilon used with `floor` is `+10^-precision`. -/
theorem indexEps_floor (p : ℕ) : indexEps Int.floor p = 1 / 10 ^ p := by
  have h : Int.floor ((1 : ℚ) / 10) = 0 := by
    rw [Int.floor_eq_iff] <;> norm_num
  unfold indexEps
  rw [h]
  push_cast
  ring

/-- The epsilon used with `ceil` is `-10^-precision`. -/
theorem indexEps_ceil (p : ℕ) : indexEps Int.ceil p = -(1 / 10 ^ p) := by
  have h : Int.ceil ((1 : ℚ) / 10) = 1 := by
    rw [Int.ceil_eq_iff] <;> norm_num
  unfold indexEps
  rw [h]
  push_cast
  ring

/-- An affine with `a = 1, e = -1` and no rotation or translation, used as a
concrete axis-aligned transform. -/
def unitAffine : AffineT := ⟨1, 0, 0, 0, -1, 0⟩

/-- C3 counterexample: with the axis-aligned transform `a=1, e=-1` and the
default precision 6, the requested box with `left = 0.9999995` (half an
epsilon below the pixel boundary at 1) is floor-indexed to column 1 because
of the `+eps` nudge, so the returned window's `window_bounds` has
`x_min = 1 > left`: the result does not fully contain the requested box. -/
theorem get_window_bounds_not_containing :
    ¬ ((window_bounds
          (get_window (9999995 / 10000000) 1 2 2 unitAffine 6)
          unitAffine).1 ≤ 9999995 / 10000000 ∧
       (window_bounds
          (get_window (9999995 / 10000000) 1 2 2 unitAffine 6)
          unitAffine).2.1 ≤ 1 ∧
       (2 : ℚ) ≤ (window_bounds
          (get_window (9999995 / 10000000) 1 2 2 unitAffine 6)
          unitAffine).2.2.1 ∧
       (2 : ℚ) ≤ (window_bounds
          (get_window (9999995 / 10000000) 1 2 2 unitAffine 6)
          unitAffine).2.2.2) := by
  have hcs : Int.floor (((9999995 / 10000000 : ℚ) +
      indexEps Int.floor 6 - unitAffine.c) / unitAffine.a) = 1 := by
    rw [indexEps_floor]
    unfold unitAffine
    rw [Int.floor_eq_iff] <;> norm_num
  intro hcontain
  have hx := hcontain.1
  unfold window_bounds get_window get_index applyAffine at hx
  rw [hcs] at hx
  unfold unitAffine at hx
  norm_num at hx

/-- C3 amended: for an axis-aligned transform (`b = d = 0`) with `a > 0` and
`e < 0`, the `window_bounds` of the `get_window` result contain the
requested world box up to the indexing tolerance `10^-precision` on each
side: `x_min ≤ left + eps`, `y_min ≤ bottom + eps`, `x_max ≥ right - eps`,
`y_max ≥ top - eps`. -/
theorem get_window_bounds_contain_within_eps (t : AffineT)
    (hb : t.b = 0) (hd : t.d = 0) (ha : 0 < t.a) (he : t.e < 0)
    (left bottom right top : ℚ) (p : ℕ) :
    (window_bounds (get_window left bottom right top t p) t).1 ≤
      left + 1 / 10 ^ p ∧
    (window_bounds (get_window left bottom right top t p) t).2.1 ≤
      bottom + 1 / 10 ^ p ∧
    right - 1 / 10 ^ p ≤
      (window_bounds (get_window left bottom right top t p) t).2.2.1 ∧
    top - 1 / 10 ^ p ≤
      (window_bounds (get_window left bottom right top t p) t).2.2.2 := by
  have ha0 : t.a ≠ 0 := ne_of_gt ha
  have he0 : t.e ≠ 0 := ne_of_lt he
  unfold window_bounds get_window get_index applyAffine
  rw [indexEps_floor, indexEps_ceil]
  simp only [hb, hd, zero_mul, add_zero, zero_add]
  refine ⟨?_, ?_, ?_, ?_⟩
  · have h1 := Int.floor_le ((left + 1 / 10 ^ p - t.c) / t.a)
    have h2 := mul_le_mul_of_nonneg_left h1 (le_of_lt ha)
    have h3 : t.a * ((left + 1 / 10 ^ p - t.c) / t.a) =
        left + 1 / 10 ^ p - t.c := by field_simp; ring
    push_cast at h2 ⊢
    linarith
  · have h1 := Int.le_ceil ((bottom - -(1 / 10 ^ p) - t.f) / t.e)
    have h2 := mul_le_mul_of_nonpos_left h1 (le_of_lt he)
    have h3 : t.e * ((bottom - -(1 / 10 ^ p) - t.f) / t.e) =
        bottom - -(1 / 10 ^ p) - t.f := by field_simp; ring
    push_cast at h2 ⊢
    linarith
  · have h1 := Int.le_ceil ((right + -(1 / 10 ^ p) - t.c) / t.a)
    have h2 := mul_le_mul_of_nonneg_left h1 (le_of_lt ha)
    have h3 : t.a * ((right + -(1 / 10 ^ p) - t.c) / t.a) =
        right + -(1 / 10 ^ p) - t.c := by field_simp; ring
    push_cast at h2 ⊢
    linarith
  · have h1 := Int.floor_le ((top - 1 / 10 ^ p - t.f) / t.e)
    have h2 := mul_le_mul_of_nonpos_left h1 (le_of_lt he)
    have h3 : t.e * ((top - 1 / 10 ^ p - t.f) / t.e) =
        top - 1 / 10 ^ p - t.f := by field_simp; ring
    push_cast at h2 ⊢
    linarith

/-- Witness for the amended C3 at the unit axis-aligned transform. -/
theorem get_window_bounds_contain_within_eps_witness :
    (unitAffine.b = 0 ∧ unitAffine.d = 0 ∧ 0 < unitAffine.a ∧
      unitAffine.e < 0) ∧
    (window_bounds (get_window (1 / 2) 1 2 2 unitAffine 6) unitAffine).1 ≤
      1 / 2 + 1 / 10 ^ 6 :=
  ⟨⟨rfl, rfl, by norm_num [unitAffine], by norm_num [unitAffine]⟩,
   (get_window_bounds_contain_within_eps unitAffine rfl rfl
     (by norm_num [unitAffine]) (by norm_num [unitAffine]) (1 / 2) 1 2 2
     6).1⟩

/-! ## CRS parameter model (`read_crs` parsing, `write_crs` serialization)

PROJ parameter strings are split on whitespace; each token is split on `=`;
two parts give a key/value pair with attempted numeric coercion, one part a
boolean-true flag, anything else is an error.  Keys lose a leading `+`.
Serialization renders boolean-true (or truthy `no_defs`) parameters as
`+key` and everything else as `+key=value`, joined by spaces.

Python string operations are modelled structurally over `List Char`. -/

/-- A parameter value: string, integer, float (as an exact rational), or
boolean. -/
inductive PValue where
  | str (s : String)
  | intVal (n : ℤ)
  | ratVal (q : ℚ)
  | boolVal (b : Bool)
deriving DecidableEq

/-- Python truthiness of a parameter value. -/
def pyTruthy : PValue → Bool
  | .str s => s ≠ ""
  | .intVal n => n ≠ 0
  | .ratVal q => q ≠ 0
  | .boolVal b => b

/-- Python `str` of a parameter value as used in `"+%s=%s" % (k, v)`.
Rational values (floats) are rendered via the rational `toString` as a
stand-in for Python's float repr; no statement below depends on it. -/
def renderPValue : PValue → String
  | .str s => s
  | .intVal n => toString n
  | .ratVal q => toString q
  | .boolVal b => if b then "True" else "False"

/-- One parameter of `write_crs`:
`if v is True or (k == 'no_defs' and v): "+%s" % k else "+%s=%s" % (k, v)`. -/
def serializeParam (k : String) (v : PValue) : String :=
  if v = .boolVal true ∨ (k = "no_defs" ∧ pyTruthy v) then "+" ++ k
  else "+" ++ k ++ "=" ++ renderPValue v

/-- Python `" ".join(params)`. -/
def joinWithSpace : List String → String
  | [] => ""
  | [s] => s
  | s :: rest => s ++ " " ++ joinWithSpace rest

/-- `write_crs` serialization: each mapping item rendered and space-joined,
in mapping order. -/
def serializeCRS (crs : List (String × PValue)) : String :=
  joinWithSpace (crs.map fun kv => serializeParam kv.1 kv.2)

/-- Python `value.split()`: split on runs of whitespace, dropping empty
pieces (accumulator holds the current token reversed). -/
def splitWsAux : List Char → List Char → List (List Char)
  | [], acc => if acc = [] then [] else [acc.reverse]
  | c :: rest, acc =>
      if c.isWhitespace then
        if acc = [] then splitWsAux rest []
        else acc.reverse :: splitWsAux rest []
      else splitWsAux rest (c :: acc)

/-- Python `value.split()` over the characters of a token stream. -/
def splitWs (s : List Char) : List (List Char) := splitWsAux s []

/-- Python `param.split("=")`: split on every `=`, keeping empty pieces. -/
def splitEqAux : List Char → List Char → List (List Char)
  | [], acc => [acc.reverse]
  | c :: rest, acc =>
      if c = '=' then acc.reverse :: splitEqAux rest []
      else splitEqAux rest (c :: acc)

/-- Python `param.split("=")`. -/
def splitEq (s : List Char) : List (List Char) := splitEqAux s []

/-- Value of a digit string (most significant first). -/
def digitsVal (cs : List Char) : ℕ :=
  cs.foldl (fun acc c => acc * 10 + (c.toNat - 48)) 0

/-- Optional leading sign of a numeric literal. -/
def parseSign : List Char → Int × List Char
  | '+' :: r => (1, r)
  | '-' :: r => (-1, r)
  | r => (1, r)

/-- Split a numeric literal at the first `e`/`E` (exponent marker). -/
def splitExp : List Char → List Char × Option (List Char)
  | [] => ([], none)
  | c :: rest =>
      if c = 'e' ∨ c = 'E' then ([], some rest)
      else
        let p := splitExp rest
        (c :: p.1, p.2)

/-- Split a mantissa at the first `.`. -/
def splitDot : List Char → List Char × Option (List Char)
  | [] => ([], none)
  | c :: rest =>
      if c = '.' then ([], some rest)
      else
        let p := splitDot rest
        (c :: p.1, p.2)

/-- Python `float(v)` on a decimal literal `[sign] digits [. digits]
[e/E [sign] digits]`; `none` models `ValueError`.  (The special forms
`inf`/`nan` have no rational counterpart and are not modelled; no proj
parameter below uses them.) -/
def parseFloat (cs : List Char) : Option ℚ :=
  let sm := parseSign cs
  let me := splitExp sm.2
  let ifr := splitDot me.1
  let fp := ifr.2.getD []
  if ifr.1.length + fp.length = 0 then none
  else if ¬ (ifr.1.all Char.isDigit ∧ fp.all Char.isDigit) then none
  else
    let base : ℚ := (digitsVal ifr.1 : ℚ) + (digitsVal fp : ℚ) / 10 ^ fp.length
    match me.2 with
    | none => some (sm.1 * base)
    | some ecs =>
        let es := parseSign ecs
        if es.2 = [] ∨ ¬ es.2.all Char.isDigit then none
        else some (sm.1 * base * (10 : ℚ) ^ (es.1 * (digitsVal es.2 : ℤ)))

/-- `v = float(v); if v % 1 == 0: v = int(v)` with string fallback on
`ValueError`. -/
def coerceNum (s : List Char) : PValue :=
  match parseFloat s with
  | none => .str (String.mk s)
  | some q => if q.den = 1 then .intVal q.num else .ratVal q

/-- `crs[k] = v` on the ordered mapping: overwrite in place or append. -/
def assocPut (m : List (String × PValue)) (k : String) (v : PValue) :
    List (String × PValue) :=
  match m with
  | [] => [(k, v)]
  | kv0 :: rest =>
      if kv0.1 = k then (kv0.1, v) :: rest
      else kv0 :: assocPut rest k v

/-- One token of the proj-string parser: `kv = param.split("=")`; two parts
give key/value with numeric coercion, one part a boolean flag, anything else
raises; the key loses leading `+` characters. -/
def parseParam (tok : List Char) : Except String (String × PValue) :=
  match splitEq tok with
  | [k, v] => .ok (String.mk (k.dropWhile (· = '+')), coerceNum v)
  | [k] => .ok (String.mk (k.dropWhile (· = '+')), .boolVal true)
  | _ => .error ("Unexpected proj parameter " ++ String.mk tok)

/-- The proj-string parser of `read_crs`: strip/split the exported string,
parse each token, and insert into the mapping in order. -/
def parseProj (s : String) : Except String (List (String × PValue)) :=
  (splitWs s.data).foldlM
    (fun m tok => (parseParam tok).map fun kv => assocPut m kv.1 kv.2) []

/-- The mapping `{'proj': 'longlat', 'datum': 'WGS84', 'no_defs': True}`. -/
def demoMapping : List (String × PValue) :=
  [("proj", .str "longlat"), ("datum", .str "WGS84"),
   ("no_defs", .boolVal true)]

/-- C7: serializing `{'proj':'longlat','datum':'WGS84','no_defs':True}`
renders boolean-true parameters as `+key` and the rest as `+key=value`,
space-joined, giving `"+proj=longlat +datum=WGS84 +no_defs"`, and reparsing
that string with the PROJ-parameter parser yields the same mapping back. -/
theorem crs_params_roundtrip :
    serializeCRS demoMapping = "+proj=longlat +datum=WGS84 +no_defs" ∧
    parseProj "+proj=longlat +datum=WGS84 +no_defs" = .ok demoMapping :=
  ⟨rfl, rfl⟩

/-! ## The native store and the supported dtypes

`GDALDataset` abstracts the opaque native handle: the values the external
engine returns for each query.  Band indices are 1-based. -/

/-- The fixed closed set of supported element types. -/
inductive Dtype where
  | ubyte
  | uint16
  | int16
  | uint32
  | int32
  | float32
  | float64
deriving DecidableEq

/-- The native type code each dtype maps to in the `io_*` dispatch table. -/
def gdalCode : Dtype → ℕ
  | .ubyte => 1
  | .uint16 => 2
  | .int16 => 3
  | .uint32 => 4
  | .int32 => 5
  | .float32 => 6
  | .float64 => 7

/-- Modelled from the spec: `dtypes.dtype_ranges`, the representable range
of each supported dtype (the `rasterio.dtypes` module is not among the
sources); a nodata value outside the band dtype's range is treated as
absent. -/
def dtypeRange : Dtype → ℚ × ℚ
  | .ubyte => (0, 255)
  | .uint16 => (0, 65535)
  | .int16 => (-32768, 32767)
  | .uint32 => (0, 4294967295)
  | .int32 => (-2147483648, 2147483647)
  | .float32 => (-340282346638528859811704183484516925440,
      340282346638528859811704183484516925440)
  | .float64 => (-(10 ^ 309 : ℚ), (10 ^ 309 : ℚ))

/-- The opaque native dataset handle: the responses of the external raster
engine for one opened dataset. -/
structure GDALDataset where
  rasterCount : ℕ
  xsize : ℕ
  ysize : ℕ
  drivername : String
  bandDtype : ℤ → Dtype
  bandBlockSize : ℤ → ℕ × ℕ
  bandNodata : ℤ → Option ℚ
  bandData : ℤ → ℤ → ℤ → ℤ
  projectionWkt : String
  autoEpsg : Option String
  proj4 : String
  geotransform : ℚ × ℚ × ℚ × ℚ × ℚ × ℚ

/-- `GDALGetRasterBand` + null check of `DatasetBase.band`: a valid 1-based
band index or an error. -/
def bandOf (ds : GDALDataset) (bidx : ℤ) : Except String ℤ :=
  if 1 ≤ bidx ∧ bidx ≤ (ds.rasterCount : ℤ) then .ok bidx
  else .error "band index out of range"

/-- Nodata resolution per band: the native (flag, value) pair, with the
value discarded when the flag is unset or the value lies outside the band
dtype's representable range. -/
def nodataResolved (ds : GDALDataset) (b : ℤ) : Option ℚ :=
  match ds.bandNodata b with
  | none => none
  | some v =>
      if v < (dtypeRange (ds.bandDtype b)).1 ∨
          v > (dtypeRange (ds.bandDtype b)).2 then none
      else some v

/-! ## Dataset lifecycle: `DatasetBase` of `_base.pyx`

The mutable attributes of a `DatasetBase` instance, with the `__init__`
values and the property accessors (`count`, `dtypes`, `block_shapes`,
`nodatavals`, `crs`, `transform`) as explicit state transformers.  Python
truthiness of the caches is preserved: `_count` is falsy iff `0`,
`_dtypes`/`_nodatavals` are falsy iff empty, `_block_shapes` and `_crs` are
compared against `None`. -/

/-- The state of a `DatasetBase` instance. -/
structure DS1 where
  name : String
  hds : Option GDALDataset
  countCache : ℕ
  widthF : Option ℕ
  heightF : Option ℕ
  shapeF : Option (ℕ × ℕ)
  driverF : Option String
  dtypesCache : List Dtype
  blockShapesCache : Option (List (ℕ × ℕ))
  nodatavalsCache : List (Option ℚ)
  crsCache : Option (List (String × PValue))
  transformCache : Option (ℚ × ℚ × ℚ × ℚ × ℚ × ℚ)
  readFlag : Bool
  closed : Bool

/-- `DatasetBase.__init__`. -/
def initDS1 (name : String) : DS1 :=
  { name := name, hds := none, countCache := 0, widthF := none,
    heightF := none, shapeF := none, driverF := none, dtypesCache := [],
    blockShapesCache := none, nodatavalsCache := [], crsCache := none,
    transformCache := none, readFlag := false, closed := true }

/-- The `count` property: cached value if truthy, else a native read that
requires the handle. -/
def countProp (st : DS1) : Except String (ℕ × DS1) :=
  if st.countCache ≠ 0 then .ok (st.countCache, st)
  else
    match st.hds with
    | none => .error "Can't read closed raster file"
    | some ds => .ok (ds.rasterCount, { st with countCache := ds.rasterCount })

/-- The `dtypes` property: if the cache is empty, loop over
`range(self._count)` fetching each band's data type (a band fetch cannot
succeed without the native handle). -/
def dtypesProp (st : DS1) : Except String (List Dtype × DS1) :=
  if st.dtypesCache ≠ [] then .ok (st.dtypesCache, st)
  else
    match (List.range st.countCache).mapM (fun i =>
        match st.hds with
        | none => Except.error "NULL band"
        | some ds => (bandOf ds ((i : ℤ) + 1)).map ds.bandDtype) with
    | .error e => .error e
    | .ok l => .ok (l, { st with dtypesCache := l })

/-- The `block_shapes` property: cache checked against `None`; the computed
entries flip the native `(xsize, ysize)` into `(rows, cols)`. -/
def blockShapesProp (st : DS1) : Except String (List (ℕ × ℕ) × DS1) :=
  match st.blockShapesCache with
  | some l => .ok (l, st)
  | none =>
      match (List.range st.countCache).mapM (fun i =>
          match st.hds with
          | none => Except.error "NULL band"
          | some ds => (bandOf ds ((i : ℤ) + 1)).map fun b =>
              ((ds.bandBlockSize b).2, (ds.bandBlockSize b).1)) with
      | .error e => .error e
      | .ok l => .ok (l, { st with blockShapesCache := some l })

/-- `get_nodatavals`: empty-cache check, then per-band flag/range
resolution. -/
def nodatavalsProp (st : DS1) : Except String (List (Option ℚ) × DS1) :=
  if st.nodatavalsCache ≠ [] then .ok (st.nodatavalsCache, st)
  else
    match (List.range st.countCache).mapM (fun i =>
        match st.hds with
        | none => Except.error "NULL band"
        | some ds => (bandOf ds ((i : ℤ) + 1)).map (nodataResolved ds)) with
    | .error e => .error e
    | .ok l => .ok (l, { st with nodatavalsCache := l })

/-- `read_crs`: requires the handle; an empty stored WKT means "no CRS"
(empty mapping); otherwise EPSG auto-identification, falling back to the
PROJ-parameter parse of the engine's PROJ export. -/
def readCrsDS1 (st : DS1) : Except String (List (String × PValue)) :=
  match st.hds with
  | none => .error "Null dataset"
  | some ds =>
      if ds.projectionWkt.length > 0 then
        match ds.autoEpsg with
        | some code => .ok [("init", .str ("epsg:" ++ code))]
        | none => parseProj ds.proj4
      else .ok []

/-- `read_transform`: requires the handle; returns the stored
geotransform. -/
def readTransformDS1 (st : DS1) :
    Except String (ℚ × ℚ × ℚ × ℚ × ℚ × ℚ) :=
  match st.hds with
  | none => .error "Null dataset"
  | some ds => .ok ds.geotransform

/-- `get_crs` (the `crs` property): re-read only when the CRS was never
read and the cache is `None`. -/
def crsProp (st : DS1) :
    Except String (Option (List (String × PValue)) × DS1) :=
  if ¬ st.readFlag ∧ st.crsCache = none then
    match readCrsDS1 st with
    | .error e => .error e
    | .ok m => .ok (some m, { st with crsCache := some m })
  else .ok (st.crsCache, st)

/-- `get_transform` (the `transform` property). -/
def transformProp (st : DS1) :
    Except String (Option (ℚ × ℚ × ℚ × ℚ × ℚ × ℚ) × DS1) :=
  if ¬ st.readFlag ∧ st.transformCache = none then
    match readTransformDS1 st with
    | .error e => .error e
    | .ok t => .ok (some t, { st with transformCache := some t })
  else .ok (st.transformCache, st)

/-- The state effect of reading `self.meta` (done at the end of `start`):
`count`, `dtypes` (when the count is nonzero), `nodata` (`count`, then
`nodatavals` when nonzero), `count`, `crs`, and `affine`/`transform` twice,
in evaluation order; finally `self._read = True`. -/
def metaTouch (st : DS1) : Except String DS1 :=
  match countProp st with
  | .error e => .error e
  | .ok cs =>
    match (if cs.1 = 0 then Except.ok cs.2 else
        match dtypesProp cs.2 with
        | .error e => Except.error e
        | .ok ds2 => Except.ok ds2.2) with
    | .error e => .error e
    | .ok st2 =>
      match countProp st2 with
      | .error e => .error e
      | .ok cs3 =>
        match (if cs3.1 = 0 then Except.ok cs3.2 else
            match nodatavalsProp cs3.2 with
            | .error e => Except.error e
            | .ok ns => Except.ok ns.2) with
        | .error e => .error e
        | .ok st4 =>
          match countProp st4 with
          | .error e => .error e
          | .ok cs5 =>
            match crsProp cs5.2 with
            | .error e => .error e
            | .ok cr =>
              match transformProp cr.2 with
              | .error e => .error e
              | .ok tr =>
                match transformProp tr.2 with
                | .error e => .error e
                | .ok tr2 => .ok { tr2.2 with readFlag := true }

/-- `DatasetBase.start` on a successfully opened handle `ds`: populate
driver, count, width, height and shape, then eagerly read the transform and
the CRS, touch `self.meta`, and mark the dataset open. -/
def start1 (st : DS1) (ds : GDALDataset) : Except String DS1 :=
  let st1 := { st with
    hds := some ds
    driverF := some ds.drivername
    countCache := ds.rasterCount
    widthF := some ds.xsize
    heightF := some ds.ysize
    shapeF := some (ds.ysize, ds.xsize) }
  match readTransformDS1 st1 with
  | .error e => .error e
  | .ok t =>
    let st2 := { st1 with transformCache := some t }
    match readCrsDS1 st2 with
    | .error e => .error e
    | .ok c =>
      let st3 := { st2 with crsCache := some c }
      match metaTouch st3 with
      | .error e => .error e
      | .ok st4 => .ok { st4 with closed := false }

/-- The per-band dtype list a full `dtypes` computation produces. -/
def dtypesOf (ds : GDALDataset) : List Dtype :=
  (List.range ds.rasterCount).map fun i : ℕ => ds.bandDtype ((i : ℤ) + 1)

/-- The per-band nodata list a full `get_nodatavals` computation
produces. -/
def nodatavalsOf (ds : GDALDataset) : List (Option ℚ) :=
  (List.range ds.rasterCount).map fun i : ℕ => nodataResolved ds ((i : ℤ) + 1)

/-- The per-band block-shape list a full `block_shapes` computation
produces. -/
def blockShapesOf (ds : GDALDataset) : List (ℕ × ℕ) :=
  (List.range ds.rasterCount).map fun i : ℕ =>
    ((ds.bandBlockSize ((i : ℤ) + 1)).2, (ds.bandBlockSize ((i : ℤ) + 1)).1)

/-- `mapM` over `Except` with everywhere-successful steps is the plain
map. -/
theorem mapM_ok {α β : Type} (l : List α) (f : α → Except String β)
    (g : α → β) (h : ∀ a ∈ l, f a = .ok (g a)) :
    l.mapM f = .ok (l.map g) := by
  induction l with
  | nil => rfl
  | cons a l ih =>
      rw [List.mapM_cons, h a (List.mem_cons_self a l),
        ih fun a ha => h a (List.mem_cons_of_mem _ ha)]
      rfl

/-- The band loop over a valid handle succeeds on every band. -/
theorem mapM_bandOf (ds : GDALDataset) {β : Type} (g : ℤ → β) :
    (List.range ds.rasterCount).mapM
        (fun i : ℕ => (bandOf ds ((i : ℤ) + 1)).map g) =
      .ok ((List.range ds.rasterCount).map fun i : ℕ => g ((i : ℤ) + 1)) := by
  apply mapM_ok
  intro i hi
  rw [List.mem_range] at hi
  unfold bandOf
  rw [if_pos (by omega)]
  rfl

/-- `dtypes` on an open dataset with an empty cache computes and memoizes
the per-band dtype list. -/
theorem dtypesProp_fresh (st : DS1) (ds : GDALDataset)
    (hh : st.hds = some ds) (hc : st.countCache = ds.rasterCount)
    (he : st.dtypesCache = []) :
    dtypesProp st = .ok (dtypesOf ds, { st with dtypesCache := dtypesOf ds }) := by
  unfold dtypesProp
  rw [he, hc, hh]
  rw [mapM_bandOf]
  simp [dtypesOf]

/-- `get_nodatavals` on an open dataset with an empty cache computes and
memoizes the resolved nodata list. -/
theorem nodatavalsProp_fresh (st : DS1) (ds : GDALDataset)
    (hh : st.hds = some ds) (hc : st.countCache = ds.rasterCount)
    (he : st.nodatavalsCache = []) :
    nodatavalsProp st =
      .ok (nodatavalsOf ds, { st with nodatavalsCache := nodatavalsOf ds }) := by
  unfold nodatavalsProp
  rw [he, hc, hh]
  rw [mapM_bandOf]
  simp [nodatavalsOf]

/-- `block_shapes` on an open dataset with an unset cache computes and
memoizes the per-band block shapes. -/
theorem blockShapesProp_fresh (st : DS1) (ds : GDALDataset)
    (hh : st.hds = some ds) (hc : st.countCache = ds.rasterCount)
    (he : st.blockShapesCache = none) :
    blockShapesProp st =
      .ok (blockShapesOf ds,
        { st with blockShapesCache := some (blockShapesOf ds) }) := by
  unfold blockShapesProp
  rw [he, hc, hh]
  rw [mapM_bandOf]
  simp [blockShapesOf]

/-- `block_shapes` with a populated cache returns it unchanged. -/
theorem blockShapesProp_cached (st : DS1) (l : List (ℕ × ℕ))
    (h : st.blockShapesCache = some l) : blockShapesProp st = .ok (l, st) := by
  unfold blockShapesProp
  rw [h]

/-- `count` on a coherent open state returns the band count without
changing the state. -/
theorem countProp_coherent (st : DS1) (ds : GDALDataset)
    (hh : st.hds = some ds) (hc : st.countCache = ds.rasterCount) :
    countProp st = .ok (ds.rasterCount, st) := by
  obtain ⟨n₁, h₁, c₁, w₁, ht₁, s₁, dr₁, dt₁, bs₁, nv₁, cr₁, tr₁, rf₁, cl₁⟩ := st
  simp only at hh hc
  subst hh hc
  unfold countProp
  rcases Nat.eq_zero_or_pos ds.rasterCount with h0 | h0
  · rw [if_neg (by omega : ¬ ds.rasterCount ≠ 0)]
  · rw [if_pos (by omega : ds.rasterCount ≠ 0)]

/-- The state effect of the `meta` touch on a freshly opened state: the
dtype and nodata caches are filled (trivially when the band count is zero)
and `_read` is set; the crs/transform caches, already set by `start`, are
not re-read. -/
theorem metaTouch_fresh (st : DS1) (ds : GDALDataset)
    (c : List (String × PValue)) (t : ℚ × ℚ × ℚ × ℚ × ℚ × ℚ)
    (hh : st.hds = some ds) (hc : st.countCache = ds.rasterCount)
    (hdt : st.dtypesCache = []) (hnv : st.nodatavalsCache = [])
    (hcr : st.crsCache = some c) (htr : st.transformCache = some t)
    (hrf : st.readFlag = false) :
    metaTouch st = .ok { st with
      dtypesCache := dtypesOf ds
      nodatavalsCache := nodatavalsOf ds
      readFlag := true } := by
  have hcount := countProp_coherent st ds hh hc
  have hcrs : crsProp st = .ok (st.crsCache, st) := by
    unfold crsProp
    rw [hrf, hcr]
    simp
  have htrp : transformProp st = .ok (st.transformCache, st) := by
    unfold transformProp
    rw [hrf, htr]
    simp
  rcases Nat.eq_zero_or_pos ds.rasterCount with h0 | h0
  · have hres : ({ st with
        dtypesCache := dtypesOf ds
        nodatavalsCache := nodatavalsOf ds
        readFlag := true } : DS1) =
        { st with readFlag := true } := by
      unfold dtypesOf nodatavalsOf
      rw [h0]
      obtain ⟨n₁, h₁, c₁, w₁, ht₁, s₁, dr₁, dt₁, bs₁, nv₁, cr₁, tr₁, rf₁,
        cl₁⟩ := st
      simp only at hdt hnv
      subst hdt hnv
      rfl
    unfold metaTouch
    rw [hres]
    simp only [hcount, hcrs, htrp, h0, if_pos]
  · have hdtp := dtypesProp_fresh st ds hh hc hdt
    have hcount2 : countProp { st with dtypesCache := dtypesOf ds } =
        .ok (ds.rasterCount, { st with dtypesCache := dtypesOf ds }) :=
      countProp_coherent _ ds hh hc
    have hnvp : nodatavalsProp { st with dtypesCache := dtypesOf ds } =
        .ok (nodatavalsOf ds, { st with
          dtypesCache := dtypesOf ds
          nodatavalsCache := nodatavalsOf ds }) :=
      nodatavalsProp_fresh _ ds hh hc hnv
    have hcount3 : countProp { st with
          dtypesCache := dtypesOf ds
          nodatavalsCache := nodatavalsOf ds } =
        .ok (ds.rasterCount, { st with
          dtypesCache := dtypesOf ds
          nodatavalsCache := nodatavalsOf ds }) :=
      countProp_coherent _ ds hh hc
    have hcrs3 : crsProp { st with
          dtypesCache := dtypesOf ds
          nodatavalsCache := nodatavalsOf ds } =
        .ok (some c, { st with
          dtypesCache := dtypesOf ds
          nodatavalsCache := nodatavalsOf ds }) := by
      unfold crsProp
      rw [show ({ st with
        dtypesCache := dtypesOf ds
        nodatavalsCache := nodatavalsOf ds } : DS1).readFlag = false from hrf,
        show ({ st with
        dtypesCache := dtypesOf ds
        nodatavalsCache := nodatavalsOf ds } : DS1).crsCache = some c from hcr]
      simp
    have htr3 : transformProp { st with
          dtypesCache := dtypesOf ds
          nodatavalsCache := nodatavalsOf ds } =
        .ok (some t, { st with
          dtypesCache := dtypesOf ds
          nodatavalsCache := nodatavalsOf ds }) := by
      unfold transformProp
      rw [show ({ st with
        dtypesCache := dtypesOf ds
        nodatavalsCache := nodatavalsOf ds } : DS1).readFlag = false from hrf,
        show ({ st with
        dtypesCache := dtypesOf ds
        nodatavalsCache := nodatavalsOf ds } : DS1).transformCache = some t
        from htr]
      simp
    unfold metaTouch
    simp only [hcount, hdtp, hcount2, hnvp, hcount3, hcrs3, htr3,
      if_neg (by omega : ¬ ds.rasterCount = 0)]

/-- The state a fresh `DatasetBase` reaches when `start` succeeds, with `c`
the CRS mapping read from the store. -/
def openedState (name : String) (ds : GDALDataset)
    (c : List (String × PValue)) : DS1 :=
  { name := name, hds := some ds, countCache := ds.rasterCount,
    widthF := some ds.xsize, heightF := some ds.ysize,
    shapeF := some (ds.ysize, ds.xsize), driverF := some ds.drivername,
    dtypesCache := dtypesOf ds, blockShapesCache := none,
    nodatavalsCache := nodatavalsOf ds, crsCache := some c,
    transformCache := some ds.geotransform, readFlag := true,
    closed := false }

/-- A successful `start` on a fresh dataset yields exactly `openedState`
for the CRS mapping it read. -/
theorem start1_ok (name : String) (ds : GDALDataset) (st : DS1)
    (h : start1 (initDS1 name) ds = .ok st) :
    ∃ c, st = openedState name ds c := by
  unfold start1 initDS1 readTransformDS1 at h
  simp only [] at h
  split at h
  · exact absurd h (by simp)
  next m heq =>
  rw [metaTouch_fresh _ ds m ds.geotransform rfl rfl rfl rfl rfl rfl rfl]
    at h
  simp only [Except.ok.injEq] at h
  exact ⟨m, h.symm⟩

/-- C4 amended: after a successful `start()` on a read-mode dataset, width,
height, driver name and band count are populated immediately, but
`transform` and `crs` are ALSO read eagerly during `start`, and the `meta`
touch at the end of `start` fills the dtype and nodata caches as well; only
`block_shapes` remains unpopulated until its first property access, which
computes it, memoizes it, and serves later accesses from the cache. -/
theorem start_metadata_population (name : String) (ds : GDALDataset)
    (st : DS1) (h : start1 (initDS1 name) ds = .ok st) :
    st.widthF = some ds.xsize ∧ st.heightF = some ds.ysize ∧
    st.driverF = some ds.drivername ∧ st.countCache = ds.rasterCount ∧
    st.transformCache = some ds.geotransform ∧ st.crsCache ≠ none ∧
    st.dtypesCache = dtypesOf ds ∧ st.nodatavalsCache = nodatavalsOf ds ∧
    st.blockShapesCache = none ∧
    blockShapesProp st = .ok (blockShapesOf ds,
      { st with blockShapesCache := some (blockShapesOf ds) }) ∧
    blockShapesProp { st with blockShapesCache := some (blockShapesOf ds) } =
      .ok (blockShapesOf ds,
        { st with blockShapesCache := some (blockShapesOf ds) }) := by
  obtain ⟨c, rfl⟩ := start1_ok name ds st h
  refine ⟨rfl, rfl, rfl, rfl, rfl, by simp [openedState], rfl, rfl, rfl,
    ?_, ?_⟩
  · exact blockShapesProp_fresh _ ds rfl rfl rfl
  · exact blockShapesProp_cached _ _ rfl

/-- A concrete one-band 4×3 dataset with no georeferencing. -/
def exampleDS : GDALDataset :=
  { rasterCount := 1, xsize := 4, ysize := 3, drivername := "GTiff",
    bandDtype := fun _ => .ubyte, bandBlockSize := fun _ => (4, 1),
    bandNodata := fun _ => none, bandData := fun _ _ _ => 0,
    projectionWkt := "", autoEpsg := none, proj4 := "",
    geotransform := (0, 1, 0, 3, 0, -1) }

/-- The state `start` reaches on `exampleDS`. -/
def exampleStarted : DS1 := openedState "example" exampleDS []

/-- C4 counterexample: immediately after `start()` succeeds — before any
property access — the transform and CRS caches are already populated (and
the `meta` touch has filled the dtype cache too); only the block-shapes
cache is still empty.  This contradicts the claim that `crs` and
`transform` remain uncached until their first property access. -/
theorem start_populates_transform_crs_eagerly :
    Except.map
        (fun s => (s.transformCache, s.crsCache, s.dtypesCache,
          s.blockShapesCache))
        (start1 (initDS1 "example") exampleDS) =
      .ok (some (0, 1, 0, 3, 0, -1), some [], [Dtype.ubyte], none) := rfl

/-- Witness for the amended C4 on the concrete dataset. -/
theorem start_metadata_population_witness :
    start1 (initDS1 "example") exampleDS = .ok exampleStarted ∧
    (exampleStarted.transformCache = some (0, 1, 0, 3, 0, -1) ∧
      exampleStarted.blockShapesCache = none) :=
  ⟨rfl,
   (start_metadata_population "example" exampleDS exampleStarted
      rfl).2.2.2.2.1,
   (start_metadata_population "example" exampleDS exampleStarted
      rfl).2.2.2.2.2.2.2.2.1⟩

/-- C5 amended: on a handle-less dataset with nothing memoized, `count`
fails with the closed-raster error and `crs`/`transform` fail with the
null-dataset error, but `dtypes`, `get_nodatavals` and `block_shapes` —
whose loops run zero times when the cached count is zero — return an empty
sequence instead of failing (and `block_shapes` even caches the empty
list). -/
theorem closed_uncached_accessors (st : DS1)
    (hh : st.hds = none) (hc : st.countCache = 0) (hd : st.dtypesCache = [])
    (hbs : st.blockShapesCache = none) (hnv : st.nodatavalsCache = [])
    (hcr : st.crsCache = none) (htr : st.transformCache = none)
    (hrf : st.readFlag = false) :
    countProp st = .error "Can't read closed raster file" ∧
    crsProp st = .error "Null dataset" ∧
    transformProp st = .error "Null dataset" ∧
    dtypesProp st = .ok (([] : List Dtype), st) ∧
    nodatavalsProp st = .ok (([] : List (Option ℚ)), st) ∧
    blockShapesProp st =
      .ok (([] : List (ℕ × ℕ)), { st with blockShapesCache := some [] }) := by
  obtain ⟨n₁, h₁, c₁, w₁, ht₁, s₁, dr₁, dt₁, bs₁, nv₁, cr₁, tr₁, rf₁,
    cl₁⟩ := st
  simp only at hh hc hd hbs hnv hcr htr hrf
  subst hh hc hd hbs hnv hcr htr hrf
  exact ⟨rfl, rfl, rfl, rfl, rfl, rfl⟩

/-- C5 counterexample: on a freshly constructed (never opened) dataset —
no native handle, nothing memoized — the `dtypes` accessor does not fail
with the closed-dataset error: its loop over `range(self._count)` runs zero
times and it returns an empty tuple. -/
theorem dtypes_on_closed_returns_value :
    dtypesProp (initDS1 "closed") = .ok ([], initDS1 "closed") := rfl

/-- Witness for the amended C5 on a fresh dataset. -/
theorem closed_uncached_accessors_witness :
    (initDS1 "w").hds = none ∧
    countProp (initDS1 "w") = .error "Can't read closed raster file" ∧
    crsProp (initDS1 "w") = .error "Null dataset" :=
  ⟨rfl,
   (closed_uncached_accessors (initDS1 "w") rfl rfl rfl rfl rfl rfl rfl
      rfl).1,
   (closed_uncached_accessors (initDS1 "w") rfl rfl rfl rfl rfl rfl rfl
      rfl).2.1⟩

/-! ## Typed I/O dispatch: `RasterReader.read_band` /
`RasterUpdater.write_band` of `_io.pyx`

The buffer-transfer layer.  A dispatched native `RasterIO` call is recorded
explicitly, so "no transfer happened" is the statement that the call list
is empty and the store is unchanged. -/

/-- The state of a `RasterReader`/`RasterUpdater` instance (`_io.pyx`). -/
structure R0 where
  name : String
  hds : Option GDALDataset
  countCache : ℕ
  widthF : Option ℕ
  heightF : Option ℕ
  shapeF : Option (ℕ × ℕ)
  driverF : Option String
  dtypesCache : List Dtype
  blockShapesCache : List (ℕ × ℕ)
  nodatavalsCache : List (Option ℚ)
  crsCache : Option (List (String × PValue))
  crsWktCache : Option String
  transformCache : Option (ℚ × ℚ × ℚ × ℚ × ℚ × ℚ)
  closed : Bool

/-- A caller-visible numpy buffer: element type, shape, and contents. -/
structure NpBuffer where
  dtype : Dtype
  shape : ℕ × ℕ
  data : ℤ → ℤ → ℤ

/-- One dispatched native `GDALRasterIO` call: band, direction, window
offsets/sizes and the native type code of the `io_*` helper used. -/
structure RasterIOCall where
  bidx : ℤ
  write : Bool
  xoff : ℤ
  yoff : ℤ
  xsize : ℤ
  ysize : ℤ
  code : ℕ

/-- The `count` property of `RasterReader`. -/
def countR0 (st : R0) : Except String (ℕ × R0) :=
  if st.countCache ≠ 0 then .ok (st.countCache, st)
  else
    match st.hds with
    | none => .error "Can't read closed raster file"
    | some ds => .ok (ds.rasterCount, { st with countCache := ds.rasterCount })

/-- The `dtypes` property of `RasterReader`: handle-checked, then a plain
loop over `range(self._count)` (no per-band error handling in this
variant). -/
def dtypesR0 (st : R0) : Except String (List Dtype × R0) :=
  if st.dtypesCache ≠ [] then .ok (st.dtypesCache, st)
  else
    match st.hds with
    | none => .error "can't read closed raster file"
    | some ds =>
      .ok ((List.range st.countCache).map fun i : ℕ =>
            ds.bandDtype ((i : ℤ) + 1),
        { st with dtypesCache := (List.range st.countCache).map fun i : ℕ =>
            ds.bandDtype ((i : ℤ) + 1) })

/-- Resolve the `(yoff, xoff, height, width)` transfer rectangle: evaluate
the window against the dataset shape when one is given, else the full
extent. -/
def resolveOffsets (window : Option WindowArg) (H W : ℕ) :
    Except String (ℤ × ℤ × ℤ × ℤ) :=
  match window with
  | some wdw =>
      match evalWindow wdw (H : ℤ) (W : ℤ) with
      | .error e => .error e
      | .ok ew => .ok (ew.1.1, ew.2.1, ew.1.2 - ew.1.1, ew.2.2 - ew.2.1)
  | none => .ok (0, 0, (H : ℤ), (W : ℤ))

/-- The effect of a read `RasterIO` on the output buffer: the transfer
rectangle is filled row-major from the band. -/
def fillBuffer (ds : GDALDataset) (bidx : ℤ) (yoff xoff h w : ℤ)
    (buf : NpBuffer) : NpBuffer :=
  { buf with data := fun r c =>
      if 0 ≤ r ∧ r < h ∧ 0 ≤ c ∧ c < w then
        ds.bandData bidx (yoff + r) (xoff + c)
      else buf.data r c }

/-- The effect of a write `RasterIO` on the store: the band's transfer
rectangle is overwritten from the source buffer. -/
def storeWrite (ds : GDALDataset) (bidx : ℤ) (yoff xoff h w : ℤ)
    (b : NpBuffer) : GDALDataset :=
  { ds with bandData := fun bb r c =>
      if bb = bidx ∧ yoff ≤ r ∧ r < yoff + h ∧ xoff ≤ c ∧ c < xoff + w then
        b.data (r - yoff) (c - xoff)
      else ds.bandData bb r c }

/-- The tail of `read_band` after the band handle is validated: resolve
`dtype = self.dtypes[i]`, allocate the output buffer if none was supplied
(zero-filled, window shape or full extent), evaluate the window, and
dispatch the typed read. -/
def readBandBody (st : R0) (ds : GDALDataset) (bidx : ℤ)
    (out : Option NpBuffer) (window : Option WindowArg) :
    (Except String NpBuffer) × R0 × List RasterIOCall :=
  match dtypesR0 st with
  | .error e => (.error e, st, [])
  | .ok dl =>
    match dl.1[(bidx - 1).toNat]? with
    | none => (.error "list index out of range", dl.2, [])
    | some dtype =>
      match dl.2.heightF, dl.2.widthF, dl.2.shapeF with
      | some H, some W, some shp =>
        match (match out with
               | some b => Except.ok b
               | none =>
                 match window with
                 | some wdw =>
                     match evalWindow wdw (H : ℤ) (W : ℤ) with
                     | .error e => Except.error e
                     | .ok ew => Except.ok (⟨dtype,
                         ((ew.1.2 - ew.1.1).toNat, (ew.2.2 - ew.2.1).toNat),
                         fun _ _ => 0⟩ : NpBuffer)
                 | none => Except.ok (⟨dtype, shp, fun _ _ => 0⟩ :
                     NpBuffer)) with
        | .error e => (.error e, dl.2, [])
        | .ok buf =>
          match resolveOffsets window H W with
          | .error e => (.error e, dl.2, [])
          | .ok off =>
            (.ok (fillBuffer ds bidx off.1 off.2.1 off.2.2.1 off.2.2.2 buf),
             dl.2,
             [⟨bidx, false, off.2.1, off.1, off.2.2.2, off.2.2.1,
               gdalCode dtype⟩])
      | _, _, _ => (.error "dataset dimensions not set", dl.2, [])

/-- `RasterReader.read_band(bidx, out, window)`: band-index validation via
`indexes` (which reads `count`), closed-handle check, dtype-mismatch check
on a caller-supplied buffer, band-handle check, then the typed transfer.
Returns the result, the mutated reader state, and the dispatched native
calls. -/
def readBand (st : R0) (bidx : ℤ) (out : Option NpBuffer)
    (window : Option WindowArg) :
    (Except String NpBuffer) × R0 × List RasterIOCall :=
  match countR0 st with
  | .error e => (.error e, st, [])
  | .ok cs =>
    if ¬ (1 ≤ bidx ∧ bidx ≤ (cs.1 : ℤ)) then
      (.error "band index out of range", cs.2, [])
    else
      match cs.2.hds with
      | none => (.error "can't read closed raster file", cs.2, [])
      | some ds =>
        match out with
        | some b =>
          match dtypesR0 cs.2 with
          | .error e => (.error e, cs.2, [])
          | .ok dl =>
            match dl.1[(bidx - 1).toNat]? with
            | none => (.error "list index out of range", dl.2, [])
            | some d0 =>
              if b.dtype ≠ d0 then
                (.error "band and output array dtypes do not match", dl.2, [])
              else
                if ¬ (1 ≤ bidx ∧ bidx ≤ (ds.rasterCount : ℤ)) then
                  (.error "NULL band", dl.2, [])
                else readBandBody dl.2 ds bidx (some b) window
        | none =>
          if ¬ (1 ≤ bidx ∧ bidx ≤ (ds.rasterCount : ℤ)) then
            (.error "NULL band", cs.2, [])
          else readBandBody cs.2 ds bidx none window

/-- The tail of `write_band` after the band handle is validated: window
evaluation, `dtype = self.dtypes[i]`, and the typed write into the
store. -/
def writeBandBody (st : R0) (ds : GDALDataset) (bidx : ℤ) (b : NpBuffer)
    (window : Option WindowArg) :
    (Except String Unit) × R0 × List RasterIOCall :=
  match st.heightF, st.widthF with
  | some H, some W =>
    match resolveOffsets window H W with
    | .error e => (.error e, st, [])
    | .ok off =>
      match dtypesR0 st with
      | .error e => (.error e, st, [])
      | .ok dl =>
        match dl.1[(bidx - 1).toNat]? with
        | none => (.error "list index out of range", dl.2, [])
        | some dtype =>
          (.ok (),
           { dl.2 with
             hds := some (storeWrite ds bidx off.1 off.2.1 off.2.2.1
               off.2.2.2 b) },
           [⟨bidx, true, off.2.1, off.1, off.2.2.2, off.2.2.1,
             gdalCode dtype⟩])
  | _, _ => (.error "dataset dimensions not set", st, [])

/-- `RasterUpdater.write_band(bidx, src, window)`: mirror of `read_band`
with the dtype-mismatch error message of the source ("srcput") and data
flowing buffer → band.  (A `None` source buffer would fail at the typed
call's buffer conversion; modelled as an error before dispatch.) -/
def writeBand (st : R0) (bidx : ℤ) (src : Option NpBuffer)
    (window : Option WindowArg) :
    (Except String Unit) × R0 × List RasterIOCall :=
  match countR0 st with
  | .error e => (.error e, st, [])
  | .ok cs =>
    if ¬ (1 ≤ bidx ∧ bidx ≤ (cs.1 : ℤ)) then
      (.error "band index out of range", cs.2, [])
    else
      match cs.2.hds with
      | none => (.error "can't read closed raster file", cs.2, [])
      | some ds =>
        match src with
        | some b =>
          match dtypesR0 cs.2 with
          | .error e => (.error e, cs.2, [])
          | .ok dl =>
            match dl.1[(bidx - 1).toNat]? with
            | none => (.error "list index out of range", dl.2, [])
            | some d0 =>
              if b.dtype ≠ d0 then
                (.error "band and srcput array dtypes do not match", dl.2, [])
              else
                if ¬ (1 ≤ bidx ∧ bidx ≤ (ds.rasterCount : ℤ)) then
                  (.error "NULL band", dl.2, [])
                else writeBandBody dl.2 ds bidx b window
        | none => (.error "source buffer required", cs.2, [])

/-- `count` on a coherent open reader state. -/
theorem countR0_coherent (st : R0) (ds : GDALDataset)
    (hh : st.hds = some ds) (hc : st.countCache = ds.rasterCount) :
    countR0 st = .ok (ds.rasterCount, st) := by
  obtain ⟨n₁, h₁, c₁, w₁, ht₁, s₁, dr₁, dt₁, bs₁, nv₁, cr₁, cw₁, tr₁,
    cl₁⟩ := st
  simp only at hh hc
  subst hh hc
  unfold countR0
  rcases Nat.eq_zero_or_pos ds.rasterCount with h0 | h0
  · rw [if_neg (by omega : ¬ ds.rasterCount ≠ 0)]
  · rw [if_pos (by omega : ds.rasterCount ≠ 0)]

/-- `dtypes` on a coherent open reader state with an empty cache computes
and memoizes the per-band dtype list. -/
theorem dtypesR0_fresh (st : R0) (ds : GDALDataset)
    (hh : st.hds = some ds) (hc : st.countCache = ds.rasterCount)
    (he : st.dtypesCache = []) :
    dtypesR0 st = .ok (dtypesOf ds, { st with dtypesCache := dtypesOf ds }) := by
  obtain ⟨n₁, h₁, c₁, w₁, ht₁, s₁, dr₁, dt₁, bs₁, nv₁, cr₁, cw₁, tr₁,
    cl₁⟩ := st
  simp only at hh hc he
  subst hh hc he
  unfold dtypesR0
  simp [dtypesOf]

/-- Indexing the computed dtype list at `bidx - 1` yields band `bidx`'s
dtype. -/
theorem dtypesOf_get (ds : GDALDataset) (bidx : ℤ) (h1 : 1 ≤ bidx)
    (h2 : bidx ≤ (ds.rasterCount : ℤ)) :
    (dtypesOf ds)[(bidx - 1).toNat]? = some (ds.bandDtype bidx) := by
  unfold dtypesOf
  rw [List.getElem?_map,
    List.getElem?_range (show (bidx - 1).toNat < ds.rasterCount by omega)]
  show some (ds.bandDtype (((bidx - 1).toNat : ℤ) + 1)) =
    some (ds.bandDtype bidx)
  rw [show (((bidx - 1).toNat : ℤ) + 1) = bidx from by omega]

/-- C6: a `read_band`/`write_band` call whose caller-supplied buffer has a
different element type from the selected band's dtype fails with the
dtype-mismatch error before any transfer operation is dispatched: the
result is the mismatch error, the list of dispatched native calls is empty,
and the native store (band contents) referenced by the dataset is
unchanged — only the metadata dtype cache was filled on the way to the
check. -/
theorem band_io_dtype_mismatch_rejected (st : R0) (ds : GDALDataset)
    (bidx : ℤ) (b : NpBuffer) (window : Option WindowArg)
    (hh : st.hds = some ds) (hc : st.countCache = ds.rasterCount)
    (hd : st.dtypesCache = [])
    (hb1 : 1 ≤ bidx) (hb2 : bidx ≤ (ds.rasterCount : ℤ))
    (hne : b.dtype ≠ ds.bandDtype bidx) :
    readBand st bidx (some b) window =
      (.error "band and output array dtypes do not match",
       { st with dtypesCache := dtypesOf ds }, []) ∧
    (readBand st bidx (some b) window).2.1.hds = st.hds ∧
    writeBand st bidx (some b) window =
      (.error "band and srcput array dtypes do not match",
       { st with dtypesCache := dtypesOf ds }, []) ∧
    (writeBand st bidx (some b) window).2.1.hds = st.hds := by
  have hcnt := countR0_coherent st ds hh hc
  have hdl := dtypesR0_fresh st ds hh hc hd
  have hget := dtypesOf_get ds bidx hb1 hb2
  have hmem : ¬ ¬ (1 ≤ bidx ∧ bidx ≤ (ds.rasterCount : ℤ)) :=
    not_not_intro ⟨hb1, hb2⟩
  have hread : readBand st bidx (some b) window =
      (.error "band and output array dtypes do not match",
       { st with dtypesCache := dtypesOf ds }, []) := by
    unfold readBand
    simp only [hcnt, if_neg hmem, hh, hdl, hget, if_pos hne]
  have hwrite : writeBand st bidx (some b) window =
      (.error "band and srcput array dtypes do not match",
       { st with dtypesCache := dtypesOf ds }, []) := by
    unfold writeBand
    simp only [hcnt, if_neg hmem, hh, hdl, hget, if_pos hne]
  exact ⟨hread, by rw [hread], hwrite, by rw [hwrite]⟩

/-- A reader state freshly opened on `exampleDS`. -/
def exampleR0 : R0 :=
  { name := "t", hds := some exampleDS, countCache := 1, widthF := some 4,
    heightF := some 3, shapeF := some (3, 4), driverF := some "GTiff",
    dtypesCache := [], blockShapesCache := [], nodatavalsCache := [],
    crsCache := none, crsWktCache := none, transformCache := none,
    closed := false }

/-- A caller buffer whose element type (float64) differs from the ubyte
band. -/
def exampleBuf : NpBuffer := ⟨.float64, (3, 4), fun _ _ => 0⟩

/-- Witness for C6 at a concrete mismatched read call. -/
theorem band_io_dtype_mismatch_rejected_witness :
    (exampleR0.hds = some exampleDS ∧
      exampleBuf.dtype ≠ exampleDS.bandDtype 1) ∧
    readBand exampleR0 1 (some exampleBuf) none =
      (.error "band and output array dtypes do not match",
       { exampleR0 with dtypesCache := dtypesOf exampleDS }, []) :=
  ⟨⟨rfl, by decide⟩,
   (band_io_dtype_mismatch_rejected exampleR0 exampleDS 1 exampleBuf none
     rfl rfl rfl (by decide) (by decide) (by decide)).1⟩

end Rasterio
